import Mathlib

set_option maxHeartbeats 1000000

/-!
Verification of the python-subreg client (`subreg/api.py`, `subreg/exceptions.py`)
against its natural-language specification.

The Python code is shallowly embedded: Python values exchanged with the SOAP
layer become the inductive `Value`, the SOAP transport becomes a function from
command name and keyword mapping to an optional response envelope, every client
method becomes a Lean function threading the client state (the stored session
token) and returning the result together with the list of transport calls it
dispatched, and Python exceptions become the `PyErr` error type of an `Except`
result.
-/

namespace Subreg

/-- Python values passed to and received from the SOAP layer: `None`, booleans,
integers, strings, lists, and (insertion-ordered) dictionaries with string
keys. -/
inductive Value : Type where
  | pyNone : Value
  | bool (b : Bool) : Value
  | int (n : Int) : Value
  | str (s : String) : Value
  | list (items : List Value) : Value
  | dict (entries : List (String × Value)) : Value

/-- Lookup of a key in an insertion-ordered dictionary (first match wins;
Python dictionaries have unique keys). -/
def lookupKey : List (String × Value) → String → Option Value
  | [], _ => Option.none
  | (k, v) :: rest, key => if k = key then some v else lookupKey rest key

/-- Python `d[key] = v` on an insertion-ordered dictionary: an existing key is
updated in place, a new key is appended at the end. -/
def setKey : List (String × Value) → String → Value → List (String × Value)
  | [], key, v => [(key, v)]
  | (k1, v1) :: rest, key, v =>
    if k1 = key then (key, v) :: rest else (k1, v1) :: setKey rest key v

/-- Python truthiness of a value (`bool(v)`). -/
def Value.truthy : Value → Bool
  | .pyNone => false
  | .bool b => b
  | .int n => n != 0
  | .str s => !s.isEmpty
  | .list items => !items.isEmpty
  | .dict entries => !entries.isEmpty

mutual

/-- Python `==` on embedded values: numeric cross-equality between `bool` and
`int`, structural equality on strings, element-wise equality on lists and
dictionary entry lists, `False` across different shapes. -/
def Value.pyEq : Value → Value → Bool
  | .pyNone, .pyNone => true
  | .bool a, .bool b => a == b
  | .bool a, .int m => (if a then (1 : Int) else 0) == m
  | .int n, .bool b => n == (if b then (1 : Int) else 0)
  | .int n, .int m => n == m
  | .str a, .str b => a == b
  | .list xs, .list ys => Value.pyEqList xs ys
  | .dict xs, .dict ys => Value.pyEqDict xs ys
  | _, _ => false

/-- Element-wise Python equality of two lists of values. -/
def Value.pyEqList : List Value → List Value → Bool
  | [], [] => true
  | x :: xs, y :: ys => Value.pyEq x y && Value.pyEqList xs ys
  | _, _ => false

/-- Entry-wise Python equality of two dictionary entry lists. -/
def Value.pyEqDict : List (String × Value) → List (String × Value) → Bool
  | [], [] => true
  | (k, v) :: xs, (l, w) :: ys => k == l && Value.pyEq v w && Value.pyEqDict xs ys
  | _, _ => false

end

/-- Python exceptions raised by the client: `ApiError(message, major, minor)`
from `subreg/exceptions.py`, the bare `Exception("Fatal error.")` of
`_request`, `TypeError`, `KeyError`, and `Exception(msg)` with a message. -/
inductive PyErr : Type where
  | apiError (message : String) (major : Int) (minor : Int)
  | fatalError
  | typeError
  | keyError
  | exnMsg (msg : String)
deriving DecidableEq

/-- Python subscripting `v[key]` with a string key: only dictionaries support
it (`KeyError` when the key is absent), every other shape raises `TypeError`. -/
def Value.subscript : Value → String → Except PyErr Value
  | .dict entries, key =>
    match lookupKey entries key with
    | some v => .ok v
    | Option.none => .error .keyError
  | _, _ => .error .typeError

/-- Python iteration `for x in v`: lists yield their items, dictionaries yield
their keys, strings yield their one-character substrings, anything else raises
`TypeError`. -/
def Value.pyIter : Value → Except PyErr (List Value)
  | .list items => .ok items
  | .dict entries => .ok (entries.map (fun p => Value.str p.1))
  | .str s => .ok (s.toList.map (fun ch => Value.str (String.mk [ch])))
  | _ => .error .typeError

/-- The error descriptor of a response envelope:
`response["error"]["errormsg"]` and the major/minor codes under
`response["error"]["errorcode"]`. -/
structure ErrDesc : Type where
  errormsg : String
  major : Int
  minor : Int
deriving DecidableEq

/-- The response envelope returned by the transport: a `status` string, an
optional error descriptor, and an optional `data` payload.  A falsy/empty
response is modelled as `Option.none` at the transport level. -/
structure Envelope : Type where
  status : String
  error : Option ErrDesc
  data : Option Value

/-- The external SOAP transport: commands are dispatched by name with a keyword
mapping, returning an envelope, or `none` for a falsy/empty response. -/
def Transport : Type := String → List (String × Value) → Option Envelope

/-- One dispatched transport call: the command name together with the keyword
mapping actually sent (after session-token injection). -/
structure Call : Type where
  command : String
  kwargs : List (String × Value)

/-- The client state: the stored session token `self.ssid`
(`Option.none` models Python `None`). -/
structure ApiState : Type where
  ssid : Option Value

/-- Truthiness of the stored `self.ssid` field. -/
def pyTruthyOpt : Option Value → Bool
  | Option.none => false
  | some v => v.truthy

/-- The keyword mapping actually dispatched by `_request`: when `self.ssid` is
truthy it is injected under the key `"ssid"`. -/
def dispatchKwargs (st : ApiState) (kwargs : List (String × Value)) :
    List (String × Value) :=
  match st.ssid with
  | some v => if v.truthy then setKey kwargs "ssid" v else kwargs
  | Option.none => kwargs

/-- `Api._request(command, kwargs)`: default the keyword mapping to an empty
dictionary, inject a truthy session token under `"ssid"`, dispatch through the
transport, then: a falsy response raises `Exception("Fatal error.")`; a
response with `status == "error"` raises `ApiError` built from the error
descriptor; otherwise `response["data"]` is returned.  The single dispatched
call is also reported. -/
def Api.request (st : ApiState) (t : Transport) (command : String)
    (kwargs0 : Option (List (String × Value))) :
    Except PyErr Value × List Call :=
  let kwargs := dispatchKwargs st (kwargs0.getD [])
  let result : Except PyErr Value :=
    match t command kwargs with
    | some response =>
      if response.status = "error" then
        match response.error with
        | some e => .error (.apiError e.errormsg e.major e.minor)
        | Option.none => .error .keyError
      else
        match response.data with
        | some d => .ok d
        | Option.none => .error .keyError
    | Option.none => .error .fatalError
  (result, [⟨command, kwargs⟩])

/-- `Api.login(username, password)`: dispatch `Login` with the credentials and
store `response["ssid"]` in `self.ssid`.  On any exception from `_request` (or
a `KeyError` on a payload without `"ssid"`) the state is left unchanged. -/
def Api.login (st : ApiState) (t : Transport) (username password : String) :
    ApiState × Except PyErr Unit × List Call :=
  let (r, calls) := Api.request st t "Login"
    (some [("login", .str username), ("password", .str password)])
  match r with
  | .error e => (st, .error e, calls)
  | .ok data =>
    match data.subscript "ssid" with
    | .error e => (st, .error e, calls)
    | .ok v => ({ st with ssid := some v }, .ok (), calls)

/-- `Api.__init__(username, password, wsdl)`: the state starts with
`self.ssid = None`; when both credentials are truthy, `login` is performed
immediately (its exceptions propagate out of the constructor). -/
def Api.init (t : Transport) (username password : Option String) :
    ApiState × Except PyErr Unit × List Call :=
  let st : ApiState := ⟨Option.none⟩
  match username, password with
  | some u, some p =>
    if !u.isEmpty && !p.isEmpty then Api.login st t u p else (st, .ok (), [])
  | _, _ => (st, .ok (), [])

/-- `Api.check_domain(domain)`: `True` iff `response["avail"] == 1`. -/
def Api.check_domain (st : ApiState) (t : Transport) (domain : String) :
    ApiState × Except PyErr Bool × List Call :=
  let (r, calls) := Api.request st t "Check_Domain" (some [("domain", .str domain)])
  match r with
  | .error e => (st, .error e, calls)
  | .ok data =>
    match data.subscript "avail" with
    | .error e => (st, .error e, calls)
    | .ok v => (st, .ok (v.pyEq (.int 1)), calls)

/-- `Api.info_domain(domain)`: returns the payload unchanged. -/
def Api.info_domain (st : ApiState) (t : Transport) (domain : String) :
    ApiState × Except PyErr Value × List Call :=
  let (r, calls) := Api.request st t "Info_Domain" (some [("domain", .str domain)])
  (st, r, calls)

/-- `Api.info_domain_cz(domain)`: returns the payload unchanged. -/
def Api.info_domain_cz (st : ApiState) (t : Transport) (domain : String) :
    ApiState × Except PyErr Value × List Call :=
  let (r, calls) := Api.request st t "Info_Domain_CZ" (some [("domain", .str domain)])
  (st, r, calls)

/-- `Api.domains_list()`: parameterless pass-through read. -/
def Api.domains_list (st : ApiState) (t : Transport) :
    ApiState × Except PyErr Value × List Call :=
  let (r, calls) := Api.request st t "Domains_List" Option.none
  (st, r, calls)

/-- `Api.contacts_list()`: parameterless pass-through read. -/
def Api.contacts_list (st : ApiState) (t : Transport) :
    ApiState × Except PyErr Value × List Call :=
  let (r, calls) := Api.request st t "Contacts_List" Option.none
  (st, r, calls)

/-- `Api.get_credit()`: parameterless pass-through read. -/
def Api.get_credit (st : ApiState) (t : Transport) :
    ApiState × Except PyErr Value × List Call :=
  let (r, calls) := Api.request st t "Get_Credit" Option.none
  (st, r, calls)

/-- `Api.pricelist()`: parameterless pass-through read. -/
def Api.pricelist (st : ApiState) (t : Transport) :
    ApiState × Except PyErr Value × List Call :=
  let (r, calls) := Api.request st t "Pricelist" Option.none
  (st, r, calls)

/-- `Api.list_documents()`: parameterless pass-through read. -/
def Api.list_documents (st : ApiState) (t : Transport) :
    ApiState × Except PyErr Value × List Call :=
  let (r, calls) := Api.request st t "List_Documents" Option.none
  (st, r, calls)

/-- `Api.users_list()`: parameterless pass-through read. -/
def Api.users_list (st : ApiState) (t : Transport) :
    ApiState × Except PyErr Value × List Call :=
  let (r, calls) := Api.request st t "Users_List" Option.none
  (st, r, calls)

/-- `Api.poll_get()`: parameterless pass-through read. -/
def Api.poll_get (st : ApiState) (t : Transport) :
    ApiState × Except PyErr Value × List Call :=
  let (r, calls) := Api.request st t "POLL_Get" Option.none
  (st, r, calls)

/-- `Api.set_autorenew(domain, autorenew)`: a policy outside
`["EXPIRE", "AUTORENEW", "RENEWONCE"]` returns `False` without any transport
call; otherwise `Set_Autorenew` is dispatched, returning `True` on success and
`False` when it raises `ApiError` (other exceptions propagate). -/
def Api.set_autorenew (st : ApiState) (t : Transport) (domain autorenew : String) :
    ApiState × Except PyErr Bool × List Call :=
  if autorenew = "EXPIRE" || autorenew = "AUTORENEW" || autorenew = "RENEWONCE" then
    let (r, calls) := Api.request st t "Set_Autorenew"
      (some [("domain", .str domain), ("autorenew", .str autorenew)])
    match r with
    | .ok _ => (st, .ok true, calls)
    | .error (.apiError _ _ _) => (st, .ok false, calls)
    | .error e => (st, .error e, calls)
  else (st, .ok false, [])

/-- `Api.get_dns_zone(domain)`: dispatch `Get_DNS_Zone` and return
`response["records"]`, or an empty list when that key is absent (only
`KeyError` is caught; other exceptions propagate). -/
def Api.get_dns_zone (st : ApiState) (t : Transport) (domain : String) :
    ApiState × Except PyErr Value × List Call :=
  let (r, calls) := Api.request st t "Get_DNS_Zone" (some [("domain", .str domain)])
  match r with
  | .error e => (st, .error e, calls)
  | .ok data =>
    match data.subscript "records" with
    | .ok v => (st, .ok v, calls)
    | .error .keyError => (st, .ok (.list []), calls)
    | .error e => (st, .error e, calls)

/-- The keyword mapping built by `Api.add_dns_zone`: it always carries
`domain`; when `template` is falsy (`None` or an empty string, the test is
`if not template`) the key `"template"` is additionally set to the given
value. -/
def addDnsZoneKwargs (domain : String) (template : Option String) :
    List (String × Value) :=
  let kwargs : List (String × Value) := [("domain", .str domain)]
  let templateVal : Value := match template with
    | some s => .str s
    | Option.none => .pyNone
  if !templateVal.truthy then setKey kwargs "template" templateVal else kwargs

/-- `Api.add_dns_zone(domain, template)`: dispatch `Add_DNS_Zone` with the
keyword mapping of `addDnsZoneKwargs`.  Returns `True` on success, `False`
when the call raises `ApiError`. -/
def Api.add_dns_zone (st : ApiState) (t : Transport) (domain : String)
    (template : Option String) :
    ApiState × Except PyErr Bool × List Call :=
  let (r, calls) := Api.request st t "Add_DNS_Zone" (some (addDnsZoneKwargs domain template))
  match r with
  | .ok _ => (st, .ok true, calls)
  | .error (.apiError _ _ _) => (st, .ok false, calls)
  | .error e => (st, .error e, calls)

/-- `Api.delete_dns_zone(domain)`: pass-through dispatch of `Delete_DNS_Zone`. -/
def Api.delete_dns_zone (st : ApiState) (t : Transport) (domain : String) :
    ApiState × Except PyErr Value × List Call :=
  let (r, calls) := Api.request st t "Delete_DNS_Zone" (some [("domain", .str domain)])
  (st, r, calls)

/-- Python `re.sub(r"\.$", "", s)`: remove a single trailing dot. -/
def stripTrailingDot (s : String) : String :=
  if s.data.getLast? = some '.' then String.mk s.data.dropLast else s

/-- `Api.add_dns_record(domain, record)`: a non-dictionary record raises
`TypeError`; a single trailing dot is stripped from `record["content"]`
(a missing or non-string content raises before any transport call); then
`Add_DNS_Record` is dispatched and `response["record_id"]` returned, with
`KeyError` and `ApiError` collapsing to `False`. -/
def Api.add_dns_record (st : ApiState) (t : Transport) (domain : String)
    (record : Value) :
    ApiState × Except PyErr Value × List Call :=
  match record with
  | .dict rd =>
    match lookupKey rd "content" with
    | Option.none => (st, .error .keyError, [])
    | some content =>
      match content with
      | .str s =>
        let (r, calls) := Api.request st t "Add_DNS_Record"
          (some [("domain", .str domain),
                 ("record", .dict (setKey rd "content" (.str (stripTrailingDot s))))])
        match r with
        | .ok data =>
          match data.subscript "record_id" with
          | .ok v => (st, .ok v, calls)
          | .error .keyError => (st, .ok (.bool false), calls)
          | .error e => (st, .error e, calls)
        | .error (.apiError _ _ _) => (st, .ok (.bool false), calls)
        | .error .keyError => (st, .ok (.bool false), calls)
        | .error e => (st, .error e, calls)
      | _ => (st, .error .typeError, [])
  | _ => (st, .error .typeError, [])

/-- `Api.modify_dns_record(domain, record)`: a non-dictionary record raises
`TypeError`; a missing or falsy `record["id"]` raises
`Exception("You must specify record.id when edit record.")`; then
`Modify_DNS_Record` is dispatched, `KeyError` and `ApiError` collapsing to
`False`. -/
def Api.modify_dns_record (st : ApiState) (t : Transport) (domain : String)
    (record : Value) :
    ApiState × Except PyErr Bool × List Call :=
  match record with
  | .dict rd =>
    let errm := "You must specify record.id when edit record."
    match lookupKey rd "id" with
    | Option.none => (st, .error (.exnMsg errm), [])
    | some v =>
      if !v.truthy then (st, .error (.exnMsg errm), [])
      else
        let (r, calls) := Api.request st t "Modify_DNS_Record"
          (some [("domain", .str domain), ("record", .dict rd)])
        match r with
        | .ok _ => (st, .ok true, calls)
        | .error (.apiError _ _ _) => (st, .ok false, calls)
        | .error .keyError => (st, .ok false, calls)
        | .error e => (st, .error e, calls)
  | _ => (st, .error .typeError, [])

/-- `Api.delete_dns_record(domain, record_id)`: a falsy `record_id` raises
`TypeError` before any transport call; otherwise `Delete_DNS_Record` is
dispatched with `{"domain": domain, "record": {"id": record_id}}`, returning
`True` on success and `False` when it raises `ApiError`. -/
def Api.delete_dns_record (st : ApiState) (t : Transport) (domain : String)
    (record_id : Value) :
    ApiState × Except PyErr Bool × List Call :=
  if !record_id.truthy then (st, .error .typeError, [])
  else
    let (r, calls) := Api.request st t "Delete_DNS_Record"
      (some [("domain", .str domain), ("record", .dict [("id", record_id)])])
    match r with
    | .ok _ => (st, .ok true, calls)
    | .error (.apiError _ _ _) => (st, .ok false, calls)
    | .error e => (st, .error e, calls)

/-- The fixed Google MX base records of `set_google_mx_records`
(content as written in the source, priority). -/
def googleMxBase : List (String × Int) :=
  [("ASPMX.L.GOOGLE.COM.", 1),
   ("ALT1.ASPMX.L.GOOGLE.COM.", 5),
   ("ALT2.ASPMX.L.GOOGLE.COM.", 5),
   ("ASPMX2.GOOGLEMAIL.COM.", 10),
   ("ASPMX3.GOOGLEMAIL.COM.", 10)]

/-- The first loop of `set_google_mx_records`: for each record of the zone,
when `record["type"] == "MX"` call `delete_dns_record(domain, record["id"])`;
exceptions abort the loop, accumulated transport calls are reported. -/
def mxDeleteLoop (st : ApiState) (t : Transport) (domain : String) :
    List Value → Except PyErr Unit × List Call
  | [] => (.ok (), [])
  | r :: rs =>
    match r.subscript "type" with
    | .error e => (.error e, [])
    | .ok ty =>
      if ty.pyEq (.str "MX") then
        match r.subscript "id" with
        | .error e => (.error e, [])
        | .ok rid =>
          let (_, res, calls) := Api.delete_dns_record st t domain rid
          match res with
          | .error e => (.error e, calls)
          | .ok _ =>
            let (res2, calls2) := mxDeleteLoop st t domain rs
            (res2, calls ++ calls2)
      else mxDeleteLoop st t domain rs

/-- The second loop of `set_google_mx_records`: each base record is completed
with `ttl = 3600` and `type = "MX"` (insertion order: content, prio, ttl,
type) and passed to `add_dns_record`; exceptions abort the loop. -/
def mxAddLoop (st : ApiState) (t : Transport) (domain : String) :
    List (String × Int) → Except PyErr Unit × List Call
  | [] => (.ok (), [])
  | (c, p) :: rs =>
    let record : Value := .dict
      [("content", .str c), ("prio", .int p), ("ttl", .int 3600), ("type", .str "MX")]
    let (_, res, calls) := Api.add_dns_record st t domain record
    match res with
    | .error e => (.error e, calls)
    | .ok _ =>
      let (res2, calls2) := mxAddLoop st t domain rs
      (res2, calls ++ calls2)

/-- `Api.set_google_mx_records(domain)`: read the zone, delete every record of
type `"MX"`, then add the five fixed Google MX records. -/
def Api.set_google_mx_records (st : ApiState) (t : Transport) (domain : String) :
    ApiState × Except PyErr Unit × List Call :=
  let (_, zres, calls0) := Api.get_dns_zone st t domain
  match zres with
  | .error e => (st, .error e, calls0)
  | .ok records =>
    match records.pyIter with
    | .error e => (st, .error e, calls0)
    | .ok items =>
      let (dres, calls1) := mxDeleteLoop st t domain items
      match dres with
      | .error e => (st, .error e, calls0 ++ calls1)
      | .ok _ =>
        let (ares, calls2) := mxAddLoop st t domain googleMxBase
        (st, ares, calls0 ++ calls1 ++ calls2)

/-- Modelled from the spec: the raw nested SOAP response tree consumed by the
response normalizer.  The normalizer itself is described in the specification
(section 4.1, "Normalization algorithm") but its code is not present under
`src/`; nodes are leaves (strings, integers), single-wrapped items, key/value
pairs, typed arrays, plain sequences of key/value sub-nodes, or anything
else. -/
inductive SoapNode : Type where
  | vstr (s : String) : SoapNode
  | vint (n : Int) : SoapNode
  | wrapped (item : SoapNode) : SoapNode
  | pair (key : String) (val : SoapNode) : SoapNode
  | arr (items : List SoapNode) : SoapNode
  | pairSeq (items : List SoapNode) : SoapNode
  | other : SoapNode

mutual

/-- Modelled from the spec: the response normalizer (missing from `src/`).
A single-wrapped item unwraps to the normalized form of the item; a key/value
pair becomes a one-entry mapping, with leaf values (strings, integers) used
as-is and structured values normalized recursively; a typed array becomes the
ordered sequence of normalized elements; a plain sequence of key/value
sub-nodes is merged into a single mapping; any other shape normalizes to an
empty mapping. -/
def normalize : SoapNode → Value
  | .wrapped item => normalize item
  | .pair k (.vstr s) => .dict [(k, .str s)]
  | .pair k (.vint n) => .dict [(k, .int n)]
  | .pair k v => .dict [(k, normalize v)]
  | .arr items => .list (normalizeList items)
  | .pairSeq items => .dict (mergePairs items)
  | _ => .dict []

/-- Modelled from the spec: normalization of the elements of a typed array. -/
def normalizeList : List SoapNode → List Value
  | [] => []
  | n :: ns => normalize n :: normalizeList ns

/-- Modelled from the spec: merging a plain sequence of key/value sub-nodes
into a single mapping, the union of all keys present; sub-nodes that are not
key/value pairs contribute nothing. -/
def mergePairs : List SoapNode → List (String × Value)
  | [] => []
  | .pair k (.vstr s) :: ns => (k, .str s) :: mergePairs ns
  | .pair k (.vint n) :: ns => (k, .int n) :: mergePairs ns
  | .pair k v :: ns => (k, normalize v) :: mergePairs ns
  | _ :: ns => mergePairs ns

end

mutual

/-- A response tree built purely of nested key/value-pair nodes and array
nodes (with string/integer leaves at pair values, and single-wrap nodes),
the fragment quantified over by the normalizer round-trip property. -/
inductive PureTree : Type where
  | pstr (k : String) (s : String) : PureTree
  | pint (k : String) (n : Int) : PureTree
  | psub (k : String) (t : PureTree) : PureTree
  | parr (ts : PureForest) : PureTree
  | pmerge (ts : PureForest) : PureTree
  | pwrap (t : PureTree) : PureTree

/-- A list of pure response trees. -/
inductive PureForest : Type where
  | nil : PureForest
  | cons (t : PureTree) (ts : PureForest) : PureForest

end

mutual

/-- The raw SOAP response tree denoted by a pure tree. -/
def PureTree.encode : PureTree → SoapNode
  | .pstr k s => .pair k (.vstr s)
  | .pint k n => .pair k (.vint n)
  | .psub k t => .pair k (PureTree.encode t)
  | .parr ts => .arr (PureForest.encode ts)
  | .pmerge ts => .pairSeq (PureForest.encode ts)
  | .pwrap t => .wrapped (PureTree.encode t)

/-- The raw SOAP response trees denoted by a pure forest. -/
def PureForest.encode : PureForest → List SoapNode
  | .nil => []
  | .cons t ts => PureTree.encode t :: PureForest.encode ts

end

mutual

/-- The plain mapping/sequence a pure tree stands for: key/value pairs are
one-entry mappings with leaf values unchanged, arrays are ordered sequences,
merged sequences are the union mapping of their pair entries, and wrapping is
transparent. -/
def PureTree.denote : PureTree → Value
  | .pstr k s => .dict [(k, .str s)]
  | .pint k n => .dict [(k, .int n)]
  | .psub k t => .dict [(k, PureTree.denote t)]
  | .parr ts => .list (PureForest.denote ts)
  | .pmerge ts => .dict (PureForest.entries ts)
  | .pwrap t => PureTree.denote t

/-- The ordered sequence of plain values a pure forest stands for. -/
def PureForest.denote : PureForest → List Value
  | .nil => []
  | .cons t ts => PureTree.denote t :: PureForest.denote ts

/-- The mapping entries contributed by the trees of a pure forest when merged:
each key/value pair tree contributes its entry, other trees contribute
nothing. -/
def PureForest.entries : PureForest → List (String × Value)
  | .nil => []
  | .cons (.pstr k s) ts => (k, .str s) :: PureForest.entries ts
  | .cons (.pint k n) ts => (k, .int n) :: PureForest.entries ts
  | .cons (.psub k t) ts => (k, PureTree.denote t) :: PureForest.entries ts
  | .cons _ ts => PureForest.entries ts

end

/-! ## Helper lemmas -/

/-- `_request` on a transport answering with an error-status envelope whose
error descriptor is present raises the corresponding `ApiError`. -/
theorem request_error_case (st : ApiState) (t : Transport) (c : String)
    (k0 : Option (List (String × Value))) (env : Envelope) (ed : ErrDesc)
    (h : t c (dispatchKwargs st (k0.getD [])) = some env)
    (hst : env.status = "error") (herr : env.error = some ed) :
    Api.request st t c k0 =
      (.error (.apiError ed.errormsg ed.major ed.minor),
       [⟨c, dispatchKwargs st (k0.getD [])⟩]) := by
  simp [Api.request, h, hst, herr]

/-- `_request` on a transport answering with a non-error envelope carrying a
data payload returns that payload. -/
theorem request_ok_case (st : ApiState) (t : Transport) (c : String)
    (k0 : Option (List (String × Value))) (env : Envelope) (d : Value)
    (h : t c (dispatchKwargs st (k0.getD [])) = some env)
    (hst : env.status ≠ "error") (hd : env.data = some d) :
    Api.request st t c k0 = (.ok d, [⟨c, dispatchKwargs st (k0.getD [])⟩]) := by
  simp [Api.request, h, hst, hd]

/-- `_request` on a falsy/empty transport response raises the generic fatal
error. -/
theorem request_none_case (st : ApiState) (t : Transport) (c : String)
    (k0 : Option (List (String × Value)))
    (h : t c (dispatchKwargs st (k0.getD [])) = Option.none) :
    Api.request st t c k0 =
      (.error .fatalError, [⟨c, dispatchKwargs st (k0.getD [])⟩]) := by
  simp [Api.request, h]

/-- Python equality of a value against the string `"MX"` holds exactly for
that string. -/
theorem pyEq_str_iff (v : Value) (s : String) :
    v.pyEq (.str s) = true ↔ v = .str s := by
  cases v <;> simp [Value.pyEq]

/-- `check_domain` leaves the client state unchanged. -/
theorem check_domain_state (st : ApiState) (t : Transport) (d : String) :
    (Api.check_domain st t d).1 = st := by
  unfold Api.check_domain
  repeat' split
  all_goals rfl

/-- `set_autorenew` leaves the client state unchanged. -/
theorem set_autorenew_state (st : ApiState) (t : Transport) (d pol : String) :
    (Api.set_autorenew st t d pol).1 = st := by
  unfold Api.set_autorenew
  repeat' split
  all_goals rfl

/-- `get_dns_zone` leaves the client state unchanged. -/
theorem get_dns_zone_state (st : ApiState) (t : Transport) (d : String) :
    (Api.get_dns_zone st t d).1 = st := by
  unfold Api.get_dns_zone
  repeat' split
  all_goals rfl

/-- `add_dns_zone` leaves the client state unchanged. -/
theorem add_dns_zone_state (st : ApiState) (t : Transport) (d : String)
    (tpl : Option String) : (Api.add_dns_zone st t d tpl).1 = st := by
  unfold Api.add_dns_zone
  repeat' split
  all_goals rfl

/-- `add_dns_record` leaves the client state unchanged. -/
theorem add_dns_record_state (st : ApiState) (t : Transport) (d : String)
    (rec : Value) : (Api.add_dns_record st t d rec).1 = st := by
  unfold Api.add_dns_record
  repeat' split
  all_goals rfl

/-- `modify_dns_record` leaves the client state unchanged. -/
theorem modify_dns_record_state (st : ApiState) (t : Transport) (d : String)
    (rec : Value) : (Api.modify_dns_record st t d rec).1 = st := by
  unfold Api.modify_dns_record
  repeat' split
  all_goals rfl

/-- `delete_dns_record` leaves the client state unchanged. -/
theorem delete_dns_record_state (st : ApiState) (t : Transport) (d : String)
    (rid : Value) : (Api.delete_dns_record st t d rid).1 = st := by
  unfold Api.delete_dns_record
  repeat' split
  all_goals rfl

/-- `set_google_mx_records` leaves the client state unchanged. -/
theorem set_google_mx_records_state (st : ApiState) (t : Transport)
    (d : String) : (Api.set_google_mx_records st t d).1 = st := by
  unfold Api.set_google_mx_records
  repeat' split
  all_goals rfl

/-- A well-formed response envelope: an error status comes with an error
descriptor, any other status with a dictionary data payload. -/
def GoodEnvelope (e : Envelope) : Prop :=
  (e.status = "error" ∧ ∃ ed, e.error = some ed)
  ∨ (e.status ≠ "error" ∧ ∃ d, e.data = some (Value.dict d))

/-- A transport that always answers with a well-formed envelope. -/
def GoodTransport (t : Transport) : Prop :=
  ∀ c k, ∃ e, t c k = some e ∧ GoodEnvelope e

/-- Under a well-formed transport, `delete_dns_record` with a truthy record id
dispatches exactly one `Delete_DNS_Record` call and returns a boolean. -/
theorem delete_dns_record_good (st : ApiState) (t : Transport) (domain : String)
    (rid : Value) (htr : GoodTransport t) (hrid : rid.truthy = true) :
    ∃ b, Api.delete_dns_record st t domain rid =
      (st, .ok b, [⟨"Delete_DNS_Record", dispatchKwargs st
        [("domain", .str domain), ("record", .dict [("id", rid)])]⟩]) := by
  obtain ⟨e, he, hgood⟩ :=
    htr "Delete_DNS_Record"
      (dispatchKwargs st [("domain", .str domain), ("record", .dict [("id", rid)])])
  rcases hgood with ⟨hst, ed, herr⟩ | ⟨hst, d, hd⟩
  · refine ⟨false, ?_⟩
    have hr := request_error_case st t "Delete_DNS_Record"
      (some [("domain", .str domain), ("record", .dict [("id", rid)])]) e ed he hst herr
    simp [Api.delete_dns_record, hrid, hr]
  · refine ⟨true, ?_⟩
    have hr := request_ok_case st t "Delete_DNS_Record"
      (some [("domain", .str domain), ("record", .dict [("id", rid)])]) e (.dict d) he hst hd
    simp [Api.delete_dns_record, hrid, hr]

/-- Under a well-formed transport, `add_dns_record` on a dictionary record
with string content dispatches exactly one `Add_DNS_Record` call (content with
a trailing dot stripped) and returns without raising. -/
theorem add_dns_record_good (st : ApiState) (t : Transport) (domain : String)
    (rd : List (String × Value)) (c : String) (htr : GoodTransport t)
    (hc : lookupKey rd "content" = some (.str c)) :
    ∃ out, Api.add_dns_record st t domain (.dict rd) =
      (st, .ok out, [⟨"Add_DNS_Record", dispatchKwargs st
        [("domain", .str domain),
         ("record", .dict (setKey rd "content" (.str (stripTrailingDot c))))]⟩]) := by
  obtain ⟨e, he, hgood⟩ :=
    htr "Add_DNS_Record"
      (dispatchKwargs st [("domain", .str domain),
        ("record", .dict (setKey rd "content" (.str (stripTrailingDot c))))])
  rcases hgood with ⟨hst, ed, herr⟩ | ⟨hst, d, hd⟩
  · refine ⟨.bool false, ?_⟩
    have hr := request_error_case st t "Add_DNS_Record"
      (some [("domain", .str domain),
             ("record", .dict (setKey rd "content" (.str (stripTrailingDot c))))])
      e ed he hst herr
    simp [Api.add_dns_record, hc, hr]
  · have hr := request_ok_case st t "Add_DNS_Record"
      (some [("domain", .str domain),
             ("record", .dict (setKey rd "content" (.str (stripTrailingDot c))))])
      e (.dict d) he hst hd
    cases hrec : lookupKey d "record_id" with
    | none =>
      refine ⟨.bool false, ?_⟩
      simp [Api.add_dns_record, hc, hr, Value.subscript, hrec]
    | some v =>
      refine ⟨v, ?_⟩
      simp [Api.add_dns_record, hc, hr, Value.subscript, hrec]

/-- Under a well-formed transport, the add loop of `set_google_mx_records`
dispatches one `Add_DNS_Record` call per base record, in order, each record
completed with `ttl = 3600` and type `"MX"` and its content stripped of the
trailing dot. -/
theorem mxAddLoop_good (st : ApiState) (t : Transport) (domain : String)
    (htr : GoodTransport t) :
    ∀ rs : List (String × Int), mxAddLoop st t domain rs =
      (.ok (), rs.map (fun cp =>
        ⟨"Add_DNS_Record", dispatchKwargs st
          [("domain", .str domain),
           ("record", .dict [("content", .str (stripTrailingDot cp.1)),
             ("prio", .int cp.2), ("ttl", .int 3600), ("type", .str "MX")])]⟩))
  | [] => rfl
  | (c, p) :: rs => by
    obtain ⟨out, hadd⟩ := add_dns_record_good st t domain
      [("content", .str c), ("prio", .int p), ("ttl", .int 3600), ("type", .str "MX")]
      c htr (by simp [lookupKey])
    have hset : setKey
        [("content", Value.str c), ("prio", Value.int p),
         ("ttl", Value.int 3600), ("type", Value.str "MX")]
        "content" (.str (stripTrailingDot c)) =
        [("content", Value.str (stripTrailingDot c)), ("prio", Value.int p),
         ("ttl", Value.int 3600), ("type", Value.str "MX")] := by
      simp [setKey, lookupKey]
    rw [hset] at hadd
    simp [mxAddLoop, hadd, mxAddLoop_good st t domain htr rs]

/-- The `Delete_DNS_Record` call the first loop of `set_google_mx_records`
dispatches for a zone record: one per record whose `"type"` equals `"MX"`
(keyed by its `"id"` field), none for a record of any other type. -/
def mxDeleteCall (st : ApiState) (domain : String) (r : Value) : Option Call :=
  match r with
  | .dict rd =>
    if (lookupKey rd "type").any (fun ty => ty.pyEq (.str "MX")) then
      match lookupKey rd "id" with
      | some rid =>
        some ⟨"Delete_DNS_Record", dispatchKwargs st
          [("domain", .str domain), ("record", .dict [("id", rid)])]⟩
      | Option.none => Option.none
    else Option.none
  | _ => Option.none

/-- A well-formed zone record: a dictionary with a `"type"` field, carrying a
truthy `"id"` field when the type is `"MX"`. -/
def GoodZoneRecord (r : Value) : Prop :=
  ∃ rd, r = Value.dict rd ∧ ∃ ty, lookupKey rd "type" = some ty ∧
    (ty = .str "MX" → ∃ rid, lookupKey rd "id" = some rid ∧ rid.truthy = true)

/-- Under a well-formed transport and over well-formed zone records, the
delete loop of `set_google_mx_records` finishes without raising and dispatches
exactly the calls described by `mxDeleteCall`. -/
theorem mxDeleteLoop_good (st : ApiState) (t : Transport) (domain : String)
    (htr : GoodTransport t) :
    ∀ zone : List Value, (∀ r ∈ zone, GoodZoneRecord r) →
      mxDeleteLoop st t domain zone = (.ok (), zone.filterMap (mxDeleteCall st domain))
  | [], _ => rfl
  | r :: rs, hrec => by
    obtain ⟨rd, hr, ty, hty, hmx⟩ := hrec r (List.mem_cons_self r rs)
    subst hr
    have ih := mxDeleteLoop_good st t domain htr rs
      (fun r hm => hrec r (List.mem_cons_of_mem _ hm))
    by_cases hmxty : ty = Value.str "MX"
    · subst hmxty
      obtain ⟨rid, hid, hridt⟩ := hmx rfl
      obtain ⟨b, hdel⟩ := delete_dns_record_good st t domain rid htr hridt
      have hpy : Value.pyEq (.str "MX") (.str "MX") = true := by
        simp [Value.pyEq]
      simp [mxDeleteLoop, Value.subscript, hty, hid, hdel, ih, mxDeleteCall, hpy]
    · have hne : Value.pyEq ty (.str "MX") = false := by
        cases h : Value.pyEq ty (.str "MX")
        · rfl
        · exact absurd ((pyEq_str_iff ty "MX").mp h) hmxty
      simp [mxDeleteLoop, Value.subscript, hty, hne, ih, mxDeleteCall]

/-- One of the five `Add_DNS_Record` calls dispatched by
`set_google_mx_records`: the record carries the (already dot-stripped)
content, the priority, `ttl = 3600` and type `"MX"`. -/
def googleAddCall (st : ApiState) (domain content : String) (prio : Int) : Call :=
  ⟨"Add_DNS_Record", dispatchKwargs st
    [("domain", .str domain),
     ("record", .dict [("content", .str content), ("prio", .int prio),
       ("ttl", .int 3600), ("type", .str "MX")])]⟩

/-- The five `Add_DNS_Record` calls dispatched by `set_google_mx_records`, in
order, with priorities 1, 5, 5, 10, 10. -/
def googleAddCalls (st : ApiState) (domain : String) : List Call :=
  [googleAddCall st domain "ASPMX.L.GOOGLE.COM" 1,
   googleAddCall st domain "ALT1.ASPMX.L.GOOGLE.COM" 5,
   googleAddCall st domain "ALT2.ASPMX.L.GOOGLE.COM" 5,
   googleAddCall st domain "ASPMX2.GOOGLEMAIL.COM" 10,
   googleAddCall st domain "ASPMX3.GOOGLEMAIL.COM" 10]

/-- Under a well-formed transport the add loop over the Google base records
dispatches exactly the five fixed calls. -/
theorem mxAddLoop_google (st : ApiState) (t : Transport) (domain : String)
    (htr : GoodTransport t) :
    mxAddLoop st t domain googleMxBase = (.ok (), googleAddCalls st domain) := by
  rw [mxAddLoop_good st t domain htr googleMxBase]
  refine congrArg _ ?_
  have h1 : stripTrailingDot "ASPMX.L.GOOGLE.COM." = "ASPMX.L.GOOGLE.COM" := by decide
  have h2 : stripTrailingDot "ALT1.ASPMX.L.GOOGLE.COM." = "ALT1.ASPMX.L.GOOGLE.COM" := by
    decide
  have h3 : stripTrailingDot "ALT2.ASPMX.L.GOOGLE.COM." = "ALT2.ASPMX.L.GOOGLE.COM" := by
    decide
  have h4 : stripTrailingDot "ASPMX2.GOOGLEMAIL.COM." = "ASPMX2.GOOGLEMAIL.COM" := by
    decide
  have h5 : stripTrailingDot "ASPMX3.GOOGLEMAIL.COM." = "ASPMX3.GOOGLEMAIL.COM" := by
    decide
  simp [googleMxBase, googleAddCalls, googleAddCall, h1, h2, h3, h4, h5]

/-! ## Claim theorems -/

/-- After `setKey d k v` the key `k` is mapped to `v`. -/
theorem lookupKey_setKey (d : List (String × Value)) (k : String) (v : Value) :
    lookupKey (setKey d k v) k = some v := by
  induction d with
  | nil => simp [setKey, lookupKey]
  | cons hd tl ih =>
    obtain ⟨k1, v1⟩ := hd
    by_cases h : k1 = k
    · simp [setKey, lookupKey, h]
    · simp [setKey, lookupKey, h, ih]

/-- C2: for every zone returned by the transport, `set_google_mx_records`
reads the current zone once, then dispatches exactly one `Delete_DNS_Record`
call per existing record whose type equals `"MX"` (and none for records of any
other type), and afterwards dispatches exactly five `Add_DNS_Record` calls in
the fixed order with priorities 1, 5, 5, 10, 10, each record having ttl 3600
and type `"MX"`, regardless of how many non-MX records exist in the zone. -/
theorem set_google_mx_records_spec (st : ApiState) (t : Transport)
    (domain : String) (env : Envelope) (pd : List (String × Value))
    (zone : List Value)
    (htr : GoodTransport t)
    (hz : t "Get_DNS_Zone" (dispatchKwargs st [("domain", .str domain)]) = some env)
    (hst : env.status ≠ "error") (hdata : env.data = some (.dict pd))
    (hrecs : lookupKey pd "records" = some (.list zone))
    (hzone : ∀ r ∈ zone, GoodZoneRecord r) :
    Api.set_google_mx_records st t domain =
      (st, .ok (),
        ⟨"Get_DNS_Zone", dispatchKwargs st [("domain", .str domain)]⟩ ::
        (zone.filterMap (mxDeleteCall st domain) ++ googleAddCalls st domain)) := by
  have hreq := request_ok_case st t "Get_DNS_Zone"
    (some [("domain", .str domain)]) env (.dict pd) hz hst hdata
  have hdel := mxDeleteLoop_good st t domain htr zone hzone
  have hadd := mxAddLoop_google st t domain htr
  simp [Api.set_google_mx_records, Api.get_dns_zone, hreq, Value.subscript,
    hrecs, Value.pyIter, hdel, hadd]

/-- A concrete transport: `Get_DNS_Zone` answers with a two-record zone (one
MX record with id 5, one A record with id 6), every other command with a
payload carrying a fresh record id. -/
def mxWitnessTransport : Transport := fun c _ =>
  if c = "Get_DNS_Zone" then
    some ⟨"ok", Option.none, some (.dict [("records", .list
      [.dict [("id", .int 5), ("type", .str "MX"),
              ("content", .str "old.mail.example.com.")],
       .dict [("id", .int 6), ("type", .str "A"),
              ("content", .str "1.2.3.4")]])])⟩
  else some ⟨"ok", Option.none, some (.dict [("record_id", .int 9)])⟩

/-- Witness for C2: on a concrete zone with one MX and one A record the
composite operation dispatches the zone read, one delete (for the MX record
only), and the five fixed adds. -/
theorem set_google_mx_records_witness :
    Api.set_google_mx_records ⟨Option.none⟩ mxWitnessTransport "example.com" =
      (⟨Option.none⟩, .ok (),
        ⟨"Get_DNS_Zone", [("domain", .str "example.com")]⟩ ::
        ⟨"Delete_DNS_Record", [("domain", .str "example.com"),
            ("record", .dict [("id", .int 5)])]⟩ ::
        googleAddCalls ⟨Option.none⟩ "example.com") := by
  have htr : GoodTransport mxWitnessTransport := by
    intro c k
    by_cases h : c = "Get_DNS_Zone" <;> simp [mxWitnessTransport, h, GoodEnvelope]
  have hzone : ∀ r ∈
      [Value.dict [("id", .int 5), ("type", .str "MX"),
         ("content", .str "old.mail.example.com.")],
       Value.dict [("id", .int 6), ("type", .str "A"),
         ("content", .str "1.2.3.4")]], GoodZoneRecord r := by
    intro r hr
    simp only [List.mem_cons, List.not_mem_nil, or_false] at hr
    rcases hr with rfl | rfl
    · exact ⟨_, rfl, .str "MX", rfl, fun _ => ⟨.int 5, rfl, rfl⟩⟩
    · exact ⟨_, rfl, .str "A", rfl, fun h => by simp at h⟩
  rw [set_google_mx_records_spec ⟨Option.none⟩ mxWitnessTransport "example.com"
    ⟨"ok", Option.none, some (.dict [("records", .list
      [.dict [("id", .int 5), ("type", .str "MX"),
              ("content", .str "old.mail.example.com.")],
       .dict [("id", .int 6), ("type", .str "A"),
              ("content", .str "1.2.3.4")]])])⟩
    [("records", .list
      [.dict [("id", .int 5), ("type", .str "MX"),
              ("content", .str "old.mail.example.com.")],
       .dict [("id", .int 6), ("type", .str "A"),
              ("content", .str "1.2.3.4")]])]
    [.dict [("id", .int 5), ("type", .str "MX"),
            ("content", .str "old.mail.example.com.")],
     .dict [("id", .int 6), ("type", .str "A"),
            ("content", .str "1.2.3.4")]]
    htr rfl (by simp) rfl rfl hzone]
  simp [mxDeleteCall, dispatchKwargs, lookupKey, Value.pyEq]

/-- C1: for every command and parameter mapping, `_request` behaves as
follows: on a non-empty envelope with status `"error"` it raises an `ApiError`
whose message, major and minor codes equal those of the envelope's error
descriptor; on a non-empty envelope with any other status it returns the
envelope's data field; on an empty/falsy envelope it raises the generic fatal
error carrying no structured detail. -/
theorem request_spec (st : ApiState) (t : Transport) (c : String)
    (k0 : Option (List (String × Value))) :
    (∀ env ed, t c (dispatchKwargs st (k0.getD [])) = some env →
        env.status = "error" → env.error = some ed →
        (Api.request st t c k0).1 =
          .error (.apiError ed.errormsg ed.major ed.minor))
    ∧ (∀ env d, t c (dispatchKwargs st (k0.getD [])) = some env →
        env.status ≠ "error" → env.data = some d →
        (Api.request st t c k0).1 = .ok d)
    ∧ (t c (dispatchKwargs st (k0.getD [])) = Option.none →
        (Api.request st t c k0).1 = .error .fatalError) := by
  refine ⟨?_, ?_, ?_⟩
  · intro env ed h hst herr
    rw [request_error_case st t c k0 env ed h hst herr]
  · intro env d h hst hd
    rw [request_ok_case st t c k0 env d h hst hd]
  · intro h
    rw [request_none_case st t c k0 h]

/-- A concrete transport that rejects every command the way the remote API
rejects an invalid login (major 500, minor 104). -/
def invalidLoginTransport : Transport := fun _ _ =>
  some ⟨"error", some ⟨"Incorrect login or password", 500, 104⟩, Option.none⟩

/-- A concrete transport answering every command with an ok envelope whose
payload is `{"avail": 1}`. -/
def availTransport : Transport := fun _ _ =>
  some ⟨"ok", Option.none, some (.dict [("avail", .int 1)])⟩

/-- A concrete transport whose response is always empty/falsy. -/
def emptyTransport : Transport := fun _ _ => Option.none

/-- Witness for C1: all three branches of the `_request` contract at concrete
transports. -/
theorem request_spec_witness :
    (Api.request ⟨Option.none⟩ invalidLoginTransport "Login"
        (some [("login", .str "invalid"), ("password", .str "login")])).1 =
      .error (.apiError "Incorrect login or password" 500 104)
    ∧ (Api.request ⟨Option.none⟩ availTransport "Check_Domain"
        (some [("domain", .str "example.com")])).1 =
      .ok (.dict [("avail", .int 1)])
    ∧ (Api.request ⟨Option.none⟩ emptyTransport "Get_Credit" Option.none).1 =
      .error .fatalError := by
  refine ⟨(request_spec _ _ _ _).1 _ ⟨"Incorrect login or password", 500, 104⟩
      rfl rfl rfl,
    (request_spec _ _ _ _).2.1 _ _ rfl (by simp) rfl,
    (request_spec _ _ _ _).2.2 rfl⟩

/-- C3: `add_dns_record` raises a type error when the record is not a mapping;
otherwise it strips a single trailing dot from the record's content before
sending (content without a trailing dot is sent unchanged, witnessed on the
spec's `example.com` instances), and it returns the `record_id` field of the
response payload, or `False` when that field is missing or the remote call
raises `ApiError`. -/
theorem add_dns_record_spec (st : ApiState) (t : Transport) (domain : String)
    (rd : List (String × Value)) (c : String)
    (hc : lookupKey rd "content" = some (.str c)) :
    (∀ r : Value, (∀ d, r ≠ .dict d) →
        Api.add_dns_record st t domain r = (st, .error .typeError, []))
    ∧ (Api.add_dns_record st t domain (.dict rd)).2.2 =
        [⟨"Add_DNS_Record", dispatchKwargs st [("domain", .str domain),
            ("record", .dict (setKey rd "content" (.str (stripTrailingDot c))))]⟩]
    ∧ stripTrailingDot "example.com." = "example.com"
    ∧ stripTrailingDot "example.com" = "example.com"
    ∧ (∀ env ed, t "Add_DNS_Record" (dispatchKwargs st [("domain", .str domain),
          ("record", .dict (setKey rd "content" (.str (stripTrailingDot c))))]) =
            some env →
        env.status = "error" → env.error = some ed →
        (Api.add_dns_record st t domain (.dict rd)).2.1 = .ok (.bool false))
    ∧ (∀ env pd, t "Add_DNS_Record" (dispatchKwargs st [("domain", .str domain),
          ("record", .dict (setKey rd "content" (.str (stripTrailingDot c))))]) =
            some env →
        env.status ≠ "error" → env.data = some (.dict pd) →
        (Api.add_dns_record st t domain (.dict rd)).2.1 =
          .ok ((lookupKey pd "record_id").getD (.bool false))) := by
  refine ⟨?_, ?_, by decide, by decide, ?_, ?_⟩
  · intro r hr
    cases r with
    | dict d => exact absurd rfl (hr d)
    | pyNone => rfl
    | bool b => rfl
    | int n => rfl
    | str s => rfl
    | list items => rfl
  · obtain ⟨res, hres⟩ : ∃ res, Api.request st t "Add_DNS_Record"
        (some [("domain", .str domain),
          ("record", .dict (setKey rd "content" (.str (stripTrailingDot c))))]) =
        (res, [⟨"Add_DNS_Record", dispatchKwargs st [("domain", .str domain),
          ("record", .dict (setKey rd "content" (.str (stripTrailingDot c))))]⟩]) :=
      ⟨_, rfl⟩
    simp only [Api.add_dns_record, hc, hres]
    repeat' split
    all_goals rfl
  · intro env ed h hst herr
    have hr := request_error_case st t "Add_DNS_Record"
      (some [("domain", .str domain),
        ("record", .dict (setKey rd "content" (.str (stripTrailingDot c))))])
      env ed h hst herr
    simp [Api.add_dns_record, hc, hr]
  · intro env pd h hst hd
    have hr := request_ok_case st t "Add_DNS_Record"
      (some [("domain", .str domain),
        ("record", .dict (setKey rd "content" (.str (stripTrailingDot c))))])
      env (.dict pd) h hst hd
    cases hrec : lookupKey pd "record_id" <;>
      simp [Api.add_dns_record, hc, hr, Value.subscript, hrec]

/-- A concrete transport answering every command with a payload carrying
record id 42. -/
def recordIdTransport : Transport := fun _ _ =>
  some ⟨"ok", Option.none, some (.dict [("record_id", .int 42)])⟩

/-- Witness for C3: a non-mapping record raises a type error; a record with
content `"example.com."` is sent with content `"example.com"` and the returned
record id is 42. -/
theorem add_dns_record_spec_witness :
    Api.add_dns_record ⟨Option.none⟩ recordIdTransport "example.com" (.int 7) =
      (⟨Option.none⟩, .error .typeError, [])
    ∧ (Api.add_dns_record ⟨Option.none⟩ recordIdTransport "example.com"
        (.dict [("content", .str "example.com."), ("type", .str "A")])).2.2 =
      [⟨"Add_DNS_Record", [("domain", .str "example.com"),
        ("record", .dict [("content", .str "example.com"), ("type", .str "A")])]⟩]
    ∧ (Api.add_dns_record ⟨Option.none⟩ recordIdTransport "example.com"
        (.dict [("content", .str "example.com."), ("type", .str "A")])).2.1 =
      .ok (.int 42) := by
  have h := add_dns_record_spec ⟨Option.none⟩ recordIdTransport "example.com"
    [("content", .str "example.com."), ("type", .str "A")] "example.com." rfl
  refine ⟨h.1 (.int 7) (fun d hd => Value.noConfusion hd), ?_, ?_⟩
  · exact h.2.1.trans (by rfl)
  · exact (h.2.2.2.2.2 ⟨"ok", Option.none, some (.dict [("record_id", .int 42)])⟩
      [("record_id", .int 42)] rfl (by simp) rfl).trans (by rfl)

/-- C4: `set_autorenew` with a policy outside EXPIRE/AUTORENEW/RENEWONCE
returns false without any transport call; with an allowed policy it returns
true when the remote call succeeds and false (rather than propagating) when
the remote call raises `ApiError`. -/
theorem set_autorenew_spec (st : ApiState) (t : Transport) (domain : String) :
    (∀ pol, pol ≠ "EXPIRE" → pol ≠ "AUTORENEW" → pol ≠ "RENEWONCE" →
        Api.set_autorenew st t domain pol = (st, .ok false, []))
    ∧ (∀ pol env d, (pol = "EXPIRE" ∨ pol = "AUTORENEW" ∨ pol = "RENEWONCE") →
        t "Set_Autorenew" (dispatchKwargs st
          [("domain", .str domain), ("autorenew", .str pol)]) = some env →
        env.status ≠ "error" → env.data = some d →
        (Api.set_autorenew st t domain pol).2.1 = .ok true)
    ∧ (∀ pol env ed, (pol = "EXPIRE" ∨ pol = "AUTORENEW" ∨ pol = "RENEWONCE") →
        t "Set_Autorenew" (dispatchKwargs st
          [("domain", .str domain), ("autorenew", .str pol)]) = some env →
        env.status = "error" → env.error = some ed →
        (Api.set_autorenew st t domain pol).2.1 = .ok false) := by
  refine ⟨?_, ?_, ?_⟩
  · intro pol h1 h2 h3
    simp [Api.set_autorenew, h1, h2, h3]
  · intro pol env d hpol h hst hd
    have hr := request_ok_case st t "Set_Autorenew"
      (some [("domain", .str domain), ("autorenew", .str pol)]) env d h hst hd
    rcases hpol with rfl | rfl | rfl <;> simp [Api.set_autorenew, hr]
  · intro pol env ed hpol h hst herr
    have hr := request_error_case st t "Set_Autorenew"
      (some [("domain", .str domain), ("autorenew", .str pol)]) env ed h hst herr
    rcases hpol with rfl | rfl | rfl <;> simp [Api.set_autorenew, hr]

/-- Witness for C4: `"BOGUS"` short-circuits to false with no transport call;
an allowed policy returns true on an ok envelope and false on an error
envelope. -/
theorem set_autorenew_spec_witness :
    Api.set_autorenew ⟨Option.none⟩ availTransport "example.com" "BOGUS" =
      (⟨Option.none⟩, .ok false, [])
    ∧ (Api.set_autorenew ⟨Option.none⟩ availTransport "example.com"
        "AUTORENEW").2.1 = .ok true
    ∧ (Api.set_autorenew ⟨Option.none⟩ invalidLoginTransport "example.com"
        "RENEWONCE").2.1 = .ok false := by
  refine ⟨(set_autorenew_spec _ _ _).1 "BOGUS" (by decide) (by decide) (by decide),
    (set_autorenew_spec _ _ _).2.1 "AUTORENEW" _ _ (Or.inr (Or.inl rfl)) rfl
      (by simp) rfl,
    (set_autorenew_spec _ _ _).2.2 "RENEWONCE" _
      ⟨"Incorrect login or password", 500, 104⟩ (Or.inr (Or.inr rfl)) rfl rfl rfl⟩

/-- C6: `delete_dns_record` raises a type error without calling the transport
whenever the record id is falsy; with a truthy record id it returns true on
success and false when the remote call raises `ApiError`. -/
theorem delete_dns_record_spec (st : ApiState) (t : Transport) (domain : String) :
    (∀ rid : Value, rid.truthy = false →
        Api.delete_dns_record st t domain rid = (st, .error .typeError, []))
    ∧ (∀ rid env d, rid.truthy = true →
        t "Delete_DNS_Record" (dispatchKwargs st
          [("domain", .str domain), ("record", .dict [("id", rid)])]) = some env →
        env.status ≠ "error" → env.data = some d →
        (Api.delete_dns_record st t domain rid).2.1 = .ok true)
    ∧ (∀ rid env ed, rid.truthy = true →
        t "Delete_DNS_Record" (dispatchKwargs st
          [("domain", .str domain), ("record", .dict [("id", rid)])]) = some env →
        env.status = "error" → env.error = some ed →
        (Api.delete_dns_record st t domain rid).2.1 = .ok false) := by
  refine ⟨?_, ?_, ?_⟩
  · intro rid hrid
    simp [Api.delete_dns_record, hrid]
  · intro rid env d hrid h hst hd
    have hr := request_ok_case st t "Delete_DNS_Record"
      (some [("domain", .str domain), ("record", .dict [("id", rid)])]) env d h hst hd
    simp [Api.delete_dns_record, hrid, hr]
  · intro rid env ed hrid h hst herr
    have hr := request_error_case st t "Delete_DNS_Record"
      (some [("domain", .str domain), ("record", .dict [("id", rid)])]) env ed h hst herr
    simp [Api.delete_dns_record, hrid, hr]

/-- Witness for C6: `None` raises the type error without any transport call;
id 5 returns true on an ok envelope and false on an error envelope. -/
theorem delete_dns_record_spec_witness :
    Api.delete_dns_record ⟨Option.none⟩ availTransport "example.com" .pyNone =
      (⟨Option.none⟩, .error .typeError, [])
    ∧ (Api.delete_dns_record ⟨Option.none⟩ availTransport "example.com"
        (.int 5)).2.1 = .ok true
    ∧ (Api.delete_dns_record ⟨Option.none⟩ invalidLoginTransport "example.com"
        (.int 5)).2.1 = .ok false := by
  refine ⟨(delete_dns_record_spec _ _ _).1 .pyNone rfl,
    (delete_dns_record_spec _ _ _).2.1 (.int 5) _ _ rfl rfl (by simp) rfl,
    (delete_dns_record_spec _ _ _).2.2 (.int 5) _
      ⟨"Incorrect login or password", 500, 104⟩ rfl rfl rfl rfl⟩

/-- C8: `get_dns_zone` returns the `records` field of the payload, and when
the payload lacks a `records` field it returns an empty sequence rather than
raising. -/
theorem get_dns_zone_spec (st : ApiState) (t : Transport) (domain : String)
    (env : Envelope) (pd : List (String × Value))
    (h : t "Get_DNS_Zone" (dispatchKwargs st [("domain", .str domain)]) = some env)
    (hst : env.status ≠ "error") (hd : env.data = some (.dict pd)) :
    (Api.get_dns_zone st t domain).2.1 =
      .ok ((lookupKey pd "records").getD (.list [])) := by
  have hr := request_ok_case st t "Get_DNS_Zone"
    (some [("domain", .str domain)]) env (.dict pd) h hst hd
  cases hrec : lookupKey pd "records" <;>
    simp [Api.get_dns_zone, hr, Value.subscript, hrec]

/-- Witness for C8: a payload without a `records` field yields the empty
list. -/
theorem get_dns_zone_spec_witness :
    (Api.get_dns_zone ⟨Option.none⟩ availTransport "example.com").2.1 =
      .ok (.list []) := by
  exact (get_dns_zone_spec ⟨Option.none⟩ availTransport "example.com"
    ⟨"ok", Option.none, some (.dict [("avail", .int 1)])⟩
    [("avail", .int 1)] rfl (by simp) rfl).trans (by rfl)

/-- C5 counterexample: when the empty-string template is provided, the
dispatched `Add_DNS_Zone` call still carries the key `template`, although the
claim requires the parameter mapping to omit the template key whenever a
template was provided. -/
theorem add_dns_zone_counterexample :
    (Api.add_dns_zone ⟨Option.none⟩ availTransport "example.com"
        (some "")).2.2 =
      [⟨"Add_DNS_Zone",
        [("domain", .str "example.com"), ("template", .str "")]⟩] := rfl

/-- C5 amended: `add_dns_zone` dispatches a parameter mapping that contains
the key `template` (mapped to the given value) exactly when the provided
template is falsy — absent, hence `None`, or the empty string — and omits the
template key for any non-empty template; it returns true on success and false
(rather than propagating) when the remote call raises `ApiError`. -/
theorem add_dns_zone_spec (st : ApiState) (t : Transport) (domain : String)
    (template : Option String) :
    (Api.add_dns_zone st t domain template).2.2 =
      [⟨"Add_DNS_Zone", dispatchKwargs st (addDnsZoneKwargs domain template)⟩]
    ∧ addDnsZoneKwargs domain Option.none =
        [("domain", .str domain), ("template", .pyNone)]
    ∧ (∀ s, addDnsZoneKwargs domain (some s) =
        if s = "" then [("domain", .str domain), ("template", .str "")]
        else [("domain", .str domain)])
    ∧ (∀ env d, t "Add_DNS_Zone"
          (dispatchKwargs st (addDnsZoneKwargs domain template)) = some env →
        env.status ≠ "error" → env.data = some d →
        (Api.add_dns_zone st t domain template).2.1 = .ok true)
    ∧ (∀ env ed, t "Add_DNS_Zone"
          (dispatchKwargs st (addDnsZoneKwargs domain template)) = some env →
        env.status = "error" → env.error = some ed →
        (Api.add_dns_zone st t domain template).2.1 = .ok false) := by
  refine ⟨?_, rfl, ?_, ?_, ?_⟩
  · obtain ⟨res, hres⟩ : ∃ res, Api.request st t "Add_DNS_Zone"
        (some (addDnsZoneKwargs domain template)) =
        (res, [⟨"Add_DNS_Zone",
          dispatchKwargs st (addDnsZoneKwargs domain template)⟩]) := ⟨_, rfl⟩
    simp only [Api.add_dns_zone, hres]
    repeat' split
    all_goals rfl
  · intro s
    by_cases h : s = ""
    · subst h
      rfl
    · have hs : s.isEmpty = false := by
        cases he : s.isEmpty
        · rfl
        · exact absurd ((String.isEmpty_iff s).mp he) h
      simp [addDnsZoneKwargs, Value.truthy, hs, h]
  · intro env d h hst hd
    have hr := request_ok_case st t "Add_DNS_Zone"
      (some (addDnsZoneKwargs domain template)) env d h hst hd
    simp [Api.add_dns_zone, hr]
  · intro env ed h hst herr
    have hr := request_error_case st t "Add_DNS_Zone"
      (some (addDnsZoneKwargs domain template)) env ed h hst herr
    simp [Api.add_dns_zone, hr]

/-- Witness for C5 (amended): no template sends the key mapped to `None`; a
non-empty template omits the key; result is true on an ok envelope and false
on an error envelope. -/
theorem add_dns_zone_spec_witness :
    (Api.add_dns_zone ⟨Option.none⟩ availTransport "example.com"
        Option.none).2.2 =
      [⟨"Add_DNS_Zone",
        [("domain", .str "example.com"), ("template", .pyNone)]⟩]
    ∧ addDnsZoneKwargs "example.com" (some "web") = [("domain", .str "example.com")]
    ∧ (Api.add_dns_zone ⟨Option.none⟩ availTransport "example.com"
        (some "web")).2.1 = .ok true
    ∧ (Api.add_dns_zone ⟨Option.none⟩ invalidLoginTransport "example.com"
        (some "web")).2.1 = .ok false := by
  have h1 := add_dns_zone_spec ⟨Option.none⟩ availTransport "example.com"
    Option.none
  have h2 := add_dns_zone_spec ⟨Option.none⟩ availTransport "example.com"
    (some "web")
  have h3 := add_dns_zone_spec ⟨Option.none⟩ invalidLoginTransport "example.com"
    (some "web")
  refine ⟨h1.1.trans (by rfl), (h2.2.2.1 "web").trans (by simp), ?_, ?_⟩
  · exact h2.2.2.2.1 _ _ rfl (by simp) rfl
  · exact h3.2.2.2.2 _ ⟨"Incorrect login or password", 500, 104⟩ rfl rfl rfl

/-- A concrete transport whose successful `Login` answer carries an
empty-string session token. -/
def emptyTokenTransport : Transport := fun c _ =>
  if c = "Login" then
    some ⟨"ok", Option.none, some (.dict [("ssid", .str "")])⟩
  else some ⟨"ok", Option.none, some (.dict [("count", .int 0)])⟩

/-- C7 counterexample: a successful login stores the returned (empty-string)
session token, yet the parameter mapping of the next dispatched command does
not carry the key `ssid`: the code injects the stored token only when it is
truthy. -/
theorem session_token_counterexample :
    (Api.login ⟨Option.none⟩ emptyTokenTransport "user" "pw").2.1 = .ok ()
    ∧ (Api.login ⟨Option.none⟩ emptyTokenTransport "user" "pw").1.ssid =
        some (.str "")
    ∧ (Api.domains_list
        (Api.login ⟨Option.none⟩ emptyTokenTransport "user" "pw").1
        emptyTokenTransport).2.2 = [⟨"Domains_List", []⟩] :=
  ⟨rfl, rfl, rfl⟩

/-- C7 amended: the client starts with no token (anonymous); a successful
login stores the returned session token; every command dispatched through the
request primitive carries the stored token in its parameter mapping under the
fixed key `ssid` provided the stored token is truthy (a falsy token, such as
the empty string, is not injected); and no operation other than login ever
modifies or clears the token. -/
theorem session_token_invariant (st : ApiState) (t : Transport)
    (u p : String) (env : Envelope) (d : List (String × Value)) (tok : Value)
    (henv : t "Login" (dispatchKwargs st
      [("login", .str u), ("password", .str p)]) = some env)
    (hst : env.status ≠ "error") (hdata : env.data = some (.dict d))
    (htok : lookupKey d "ssid" = some tok) :
    (Api.init t Option.none Option.none).1.ssid = Option.none
    ∧ (Api.login st t u p).1.ssid = some tok
    ∧ (∀ st2 : ApiState, ∀ v : Value, st2.ssid = some v → v.truthy = true →
        ∀ c k0, (Api.request st2 t c k0).2 = [⟨c, setKey (k0.getD []) "ssid" v⟩]
          ∧ lookupKey (setKey (k0.getD []) "ssid" v) "ssid" = some v)
    ∧ (∀ st2 : ApiState, ∀ dom pol : String, ∀ tpl : Option String,
        ∀ rec rid : Value,
        (Api.check_domain st2 t dom).1 = st2
        ∧ (Api.info_domain st2 t dom).1 = st2
        ∧ (Api.info_domain_cz st2 t dom).1 = st2
        ∧ (Api.domains_list st2 t).1 = st2
        ∧ (Api.contacts_list st2 t).1 = st2
        ∧ (Api.get_credit st2 t).1 = st2
        ∧ (Api.pricelist st2 t).1 = st2
        ∧ (Api.list_documents st2 t).1 = st2
        ∧ (Api.users_list st2 t).1 = st2
        ∧ (Api.poll_get st2 t).1 = st2
        ∧ (Api.set_autorenew st2 t dom pol).1 = st2
        ∧ (Api.get_dns_zone st2 t dom).1 = st2
        ∧ (Api.add_dns_zone st2 t dom tpl).1 = st2
        ∧ (Api.delete_dns_zone st2 t dom).1 = st2
        ∧ (Api.add_dns_record st2 t dom rec).1 = st2
        ∧ (Api.modify_dns_record st2 t dom rec).1 = st2
        ∧ (Api.delete_dns_record st2 t dom rid).1 = st2
        ∧ (Api.set_google_mx_records st2 t dom).1 = st2) := by
  refine ⟨rfl, ?_, ?_, ?_⟩
  · have hr := request_ok_case st t "Login"
      (some [("login", .str u), ("password", .str p)]) env (.dict d) henv hst hdata
    simp [Api.login, hr, Value.subscript, htok]
  · intro st2 v hssid htr c k0
    refine ⟨?_, lookupKey_setKey _ _ _⟩
    simp [Api.request, dispatchKwargs, hssid, htr]
  · intro st2 dom pol tpl rec rid
    exact ⟨check_domain_state st2 t dom, rfl, rfl, rfl, rfl, rfl, rfl, rfl, rfl,
      rfl, set_autorenew_state st2 t dom pol, get_dns_zone_state st2 t dom,
      add_dns_zone_state st2 t dom tpl, rfl, add_dns_record_state st2 t dom rec,
      modify_dns_record_state st2 t dom rec, delete_dns_record_state st2 t dom rid,
      set_google_mx_records_state st2 t dom⟩

/-- A concrete transport whose successful `Login` answer carries the session
token `"token123"`. -/
def tokenTransport : Transport := fun c _ =>
  if c = "Login" then
    some ⟨"ok", Option.none, some (.dict [("ssid", .str "token123")])⟩
  else some ⟨"ok", Option.none, some (.dict [("count", .int 0)])⟩

/-- Witness for C7 (amended): login stores the token `"token123"` and the next
command dispatched carries it under `ssid`. -/
theorem session_token_invariant_witness :
    (Api.login ⟨Option.none⟩ tokenTransport "user" "pw").1.ssid =
      some (.str "token123")
    ∧ (Api.request ⟨some (.str "token123")⟩ tokenTransport "Domains_List"
        Option.none).2 = [⟨"Domains_List", [("ssid", .str "token123")]⟩] := by
  have h := session_token_invariant ⟨Option.none⟩ tokenTransport "user" "pw"
    ⟨"ok", Option.none, some (.dict [("ssid", .str "token123")])⟩
    [("ssid", .str "token123")] (.str "token123") rfl (by simp) rfl rfl
  exact ⟨h.2.1, ((h.2.2.1 ⟨some (.str "token123")⟩ (.str "token123") rfl rfl
    "Domains_List" Option.none).1).trans (by rfl)⟩

/-- C10: if the `Login` remote call fails — the transport returns an error
envelope (so `_request` raises `ApiError`) or an empty envelope (raising the
generic fatal error) — the stored session token is left unchanged; in
particular a client constructed with rejected credentials still holds no
token. -/
theorem login_failure_atomic (st : ApiState) (t : Transport) (u p : String)
    (h : ∀ kw, t "Login" kw = Option.none ∨
      ∃ env, t "Login" kw = some env ∧ env.status = "error") :
    (Api.login st t u p).1 = st
    ∧ (Api.init t (some u) (some p)).1.ssid = Option.none := by
  have hlog : ∀ st2 : ApiState, (Api.login st2 t u p).1 = st2 := by
    intro st2
    rcases h (dispatchKwargs st2 [("login", .str u), ("password", .str p)]) with
      hn | ⟨env, he, hste⟩
    · simp [Api.login, request_none_case st2 t "Login"
        (some [("login", .str u), ("password", .str p)]) hn]
    · cases herr : env.error with
      | none => simp [Api.login, Api.request, he, hste, herr]
      | some ed =>
        simp [Api.login, request_error_case st2 t "Login"
          (some [("login", .str u), ("password", .str p)]) env ed he hste herr]
  refine ⟨hlog st, ?_⟩
  simp only [Api.init]
  split
  · rw [hlog ⟨Option.none⟩]
  · rfl

/-- Witness for C10: a login against an empty-envelope transport leaves a
stored token unchanged, and a client constructed against the
invalid-credentials transport holds no token. -/
theorem login_failure_atomic_witness :
    (Api.login ⟨some (.str "tok")⟩ emptyTransport "u" "pw").1 =
      ⟨some (.str "tok")⟩
    ∧ (Api.init invalidLoginTransport (some "invalid") (some "login")).1.ssid =
      Option.none := by
  have h1 := login_failure_atomic ⟨some (.str "tok")⟩ emptyTransport "u" "pw"
    (fun kw => Or.inl rfl)
  have h2 := login_failure_atomic ⟨Option.none⟩ invalidLoginTransport
    "invalid" "login" (fun kw => Or.inr ⟨_, rfl, rfl⟩)
  exact ⟨h1.1, h2.2⟩

mutual

/-- Normalizing the encoding of a pure response tree recovers its plain
mapping/sequence denotation, leaf values unchanged. -/
theorem normalize_encode : ∀ u : PureTree,
    normalize (PureTree.encode u) = PureTree.denote u
  | .pstr k s => rfl
  | .pint k n => rfl
  | .psub k u => by
    have ih := normalize_encode u
    cases u <;>
      simp_all [PureTree.encode, normalize, PureTree.denote]
  | .parr ts => by
    have ih := normalizeList_encode ts
    simp_all [PureTree.encode, normalize, PureTree.denote]
  | .pmerge ts => by
    have ih := mergePairs_encode ts
    simp_all [PureTree.encode, normalize, PureTree.denote]
  | .pwrap u => by
    have ih := normalize_encode u
    simp_all [PureTree.encode, normalize, PureTree.denote]

/-- Normalizing the encodings of a pure forest recovers the denoted ordered
sequence. -/
theorem normalizeList_encode : ∀ ts : PureForest,
    normalizeList (PureForest.encode ts) = PureForest.denote ts
  | .nil => rfl
  | .cons u ts => by
    have ih1 := normalize_encode u
    have ih2 := normalizeList_encode ts
    simp_all [PureForest.encode, normalizeList, PureForest.denote]

/-- Merging the encodings of a pure forest recovers the denoted mapping
entries. -/
theorem mergePairs_encode : ∀ ts : PureForest,
    mergePairs (PureForest.encode ts) = PureForest.entries ts
  | .nil => rfl
  | .cons u ts => by
    have ih2 := mergePairs_encode ts
    cases u with
    | pstr k s =>
      simp_all [PureForest.encode, PureTree.encode, mergePairs, PureForest.entries]
    | pint k n =>
      simp_all [PureForest.encode, PureTree.encode, mergePairs, PureForest.entries]
    | psub k u2 =>
      have ih1 := normalize_encode u2
      cases u2 <;>
        simp_all [PureForest.encode, PureTree.encode, mergePairs,
          PureForest.entries, normalize, PureTree.denote]
    | parr ts2 =>
      simp_all [PureForest.encode, PureTree.encode, mergePairs, PureForest.entries]
    | pmerge ts2 =>
      simp_all [PureForest.encode, PureTree.encode, mergePairs, PureForest.entries]
    | pwrap u2 =>
      simp_all [PureForest.encode, PureTree.encode, mergePairs, PureForest.entries]

end

/-- C9: for every response tree built purely of nested key/value-pair nodes
and array nodes, the normalizer recovers a plain mapping/sequence whose leaf
values (strings and integers) are unchanged; single-wrapped items unwrap to
the normalized item, key/value pairs become one-entry mappings, typed arrays
become ordered sequences, sequences of pairs merge into one mapping, and any
other shape normalizes to an empty mapping. -/
theorem normalizer_round_trip :
    (∀ u : PureTree, normalize (PureTree.encode u) = PureTree.denote u)
    ∧ (∀ n : SoapNode, normalize (.wrapped n) = normalize n)
    ∧ (∀ k s, normalize (.pair k (.vstr s)) = .dict [(k, .str s)])
    ∧ (∀ k n, normalize (.pair k (.vint n)) = .dict [(k, .int n)])
    ∧ (∀ ts : PureForest, normalize (.arr (PureForest.encode ts)) =
        .list (PureForest.denote ts))
    ∧ (∀ ts : PureForest, normalize (.pairSeq (PureForest.encode ts)) =
        .dict (PureForest.entries ts))
    ∧ (∀ s, normalize (.vstr s) = .dict [])
    ∧ (∀ n : Int, normalize (.vint n) = .dict [])
    ∧ normalize .other = .dict [] := by
  refine ⟨normalize_encode, fun n => ?_, fun k s => rfl, fun k n => rfl,
    fun ts => ?_, fun ts => ?_, fun s => rfl, fun n => rfl, rfl⟩
  · cases n <;> simp [normalize]
  · simp [normalize, normalizeList_encode ts]
  · simp [normalize, mergePairs_encode ts]

end Subreg
